import Mathlib

/-!
Shallow embedding of the QChain PQC signing-gate pipeline
(`quantum_api/main.py` and `quantum_api/cryptanalysis/*`).

Python floats that appear in the pipeline (transaction amounts, entropy and
timing scores, probabilities) are modelled as exact rationals; the decimal
literals exercised by the claims are exactly representable.  SHA-256 is
modelled as an oracle parameter (an arbitrary `String → String` supplied in an
environment), as is the random jitter drawn by the timing heuristic.
-/

namespace QChain

/-- A scalar JSON/Python value as it occurs in a transaction dict:
Python `str`, `int` or `float` (floats as exact rationals). -/
inductive PyVal where
  | pstr (s : String)
  | pint (n : Int)
  | pfloat (q : ℚ)
deriving DecidableEq, Repr

/-- Exact-rational addition written through `mkRat` so that it evaluates by
kernel reduction; `ratAdd_eq_add` below proves it is ordinary `+` on `ℚ`. -/
def ratAdd (a b : ℚ) : ℚ :=
  mkRat (a.num * b.den + b.num * a.den) (a.den * b.den)

/-- Model of Python `repr`/`json.dumps` for a float whose value is a decimal
fraction (the only floats the pipeline handles): an integral float prints as
`<n>.0`, otherwise the shortest decimal expansion is printed.  Non-decimal
rationals (never produced by float inputs) fall back to `<num>/<den>`. -/
def renderFloat (q : ℚ) : String :=
  match (List.range 18).find? (fun k => 10 ^ k % q.den = 0) with
  | some 0 => toString q.num ++ ".0"
  | some k =>
      let m : Int := q.num * ((10 ^ k) / q.den : Nat)
      let frac := toString (m.natAbs % 10 ^ k)
      (if m < 0 then "-" else "")
        ++ toString (m.natAbs / 10 ^ k) ++ "."
        ++ String.mk (List.replicate (k - frac.length) '0') ++ frac
  | none => toString q.num ++ "/" ++ toString q.den

/-- Model of JSON string escaping (`json.dumps`): backslash and double quote
are escaped; control characters are not exercised by the pipeline. -/
def jsonEscape (s : String) : String :=
  String.join (s.toList.map fun c =>
    if c = '\\' then "\\\\" else if c = '"' then "\\\"" else String.mk [c])

/-- JSON rendering of one scalar value (`json.dumps` of a leaf). -/
def renderJson : PyVal → String
  | .pstr s => "\"" ++ jsonEscape s ++ "\""
  | .pint n => toString n
  | .pfloat q => renderFloat q

/-- Python `repr` of one scalar value (as used by `str(tx)` in
`sidechannel.timing_leak_score`); strings print in single quotes. -/
def pyRepr : PyVal → String
  | .pstr s => "\x27" ++ s ++ "\x27"
  | .pint n => toString n
  | .pfloat q => renderFloat q

/-- Lexicographic (code-point) comparison of strings as char lists — the
order Python's `sorted` uses on `str` keys. -/
def strLeb : List Char → List Char → Bool
  | [], _ => true
  | _ :: _, [] => false
  | a :: as, b :: bs => if a < b then true else if a = b then strLeb as bs else false

/-- Key order used by `sorted`/`sort_keys=True`: compare the keys. -/
def keyLeb (p q : String × PyVal) : Bool := strLeb p.1.toList q.1.toList

/-- Insert one item into a key-sorted item list. -/
def insertKey (p : String × PyVal) : List (String × PyVal) → List (String × PyVal)
  | [] => [p]
  | q :: l => if keyLeb p q then p :: q :: l else q :: insertKey p l

/-- `sort_keys=True`: insertion sort of the dict items by key (keys of a dict
are unique, so stability is irrelevant). -/
def sortByKey : List (String × PyVal) → List (String × PyVal)
  | [] => []
  | p :: l => insertKey p (sortByKey l)

/-- One `"key"<kvSep><value>` item of a JSON object. -/
def dumpsEntry (kvSep : String) (kv : String × PyVal) : String :=
  "\"" ++ jsonEscape kv.1 ++ "\"" ++ kvSep ++ renderJson kv.2

/-- `json.dumps(dict, sort_keys=True, separators=(itemSep, kvSep))` on a flat
dict given as its item list. -/
def dumps (itemSep kvSep : String) (kvs : List (String × PyVal)) : String :=
  "\x7b" ++ String.intercalate itemSep ((sortByKey kvs).map (dumpsEntry kvSep)) ++ "\x7d"

/-- `Transaction` (pydantic model in `main.py`): `amount: float (gt=0)`,
`to: str`, `nonce: int`, `timestamp: str`. -/
structure Transaction where
  amount : ℚ
  «to» : String
  nonce : Int
  timestamp : String
deriving DecidableEq, Repr

/-- `tx.dict()`: the transaction's fields as a Python dict item list, in
declaration order (`amount`, `to`, `nonce`, `timestamp`). -/
def txDict (tx : Transaction) : List (String × PyVal) :=
  [("amount", .pfloat tx.amount), ("to", .pstr tx.to),
   ("nonce", .pint tx.nonce), ("timestamp", .pstr tx.timestamp)]

/-- `main.canonical`: `json.dumps(tx.dict(), sort_keys=True,
separators=(",", ":")).encode()` — sorted keys, no whitespace. -/
def canonical (tx : Transaction) : String :=
  dumps "," ":" (txDict tx)

/-- `json.dumps(tx, sort_keys=True)` with Python's default separators
`(", ", ": ")` — the serialization hashed by `cryptanalysis/replay.py` and by
the entropy check in `cryptanalysis/analyzer.py`. -/
def dumpsDefault (tx : Transaction) : String :=
  dumps ", " ": " (txDict tx)

/-- `str(tx)` for the transaction dict (Python dict repr, insertion order),
as measured by `sidechannel.timing_leak_score`. -/
def pyStr (tx : Transaction) : String :=
  "\x7b" ++ String.intercalate ", "
    ((txDict tx).map (fun kv => "\x27" ++ kv.1 ++ "\x27: " ++ pyRepr kv.2)) ++ "\x7d"

/-! ## `cryptanalysis/zkp_layer.py` -/

/-- The values read out of `zkp["public_inputs"]` (only the keys
`amount_gt_zero`, `nonce`, `recipient` are ever consulted); `none` models an
absent key. -/
structure ZKPInputs where
  amount_gt_zero : Option Bool
  nonce : Option Int
  recipient : Option String
deriving DecidableEq, Repr

/-- The `zkp` request dict.  `enable` is the value of the `"enable"` key (the
key the code reads); `enabled` is the value of a `"enabled"` key, which the
code never reads — it is carried so that requests written against either
spelling can be expressed.  `none` models an absent key. -/
structure ZKPDict where
  enable : Option Bool
  enabled : Option Bool
  attributes : List String
  public_inputs : ZKPInputs
deriving DecidableEq, Repr

/-- `zkp_layer.verify_zkp_attributes(tx, zkp)`.  The guard
`not zkp or not zkp.get("enable", False)` passes exactly when the `"enable"`
key is present with value `True` (an empty dict has no such key). -/
def verify_zkp_attributes (tx : Transaction) (zkp : ZKPDict) : Bool × String :=
  if zkp.enable ≠ some true then (true, "")
  else if "amount_gt_zero" ∉ zkp.attributes then
    (false, "Missing ZKP attribute: amount_gt_zero")
  else if zkp.public_inputs.amount_gt_zero = none then
    (false, "Missing ZKP public input: amount_gt_zero")
  else if zkp.public_inputs.amount_gt_zero ≠ some (decide (tx.amount > 0)) then
    (false, "ZKP verification failed: amount_gt_zero mismatch")
  else if "nonce" ∈ zkp.attributes ∧ zkp.public_inputs.nonce ≠ some tx.nonce then
    (false, "ZKP verification failed: nonce mismatch")
  else if "recipient" ∈ zkp.attributes ∧ zkp.public_inputs.recipient ≠ some tx.to then
    (false, "ZKP verification failed: recipient mismatch")
  else (true, "")

/-! ## `cryptanalysis/replay.py`, `sidechannel.py`, `analyzer.py`

`hashlib.sha256(...).hexdigest()` is modelled as an oracle `String → String`
carried in the environment, and the `random.uniform(0.0, 0.4)` jitter drawn by
`timing_leak_score` as a rational in the environment. -/

/-- The analyzer's effect environment: the SHA-256 hex-digest oracle and the
jitter drawn by `random.uniform(0.0, 0.4)`. -/
structure AnalyzerEnv where
  sha256Hex : String → String
  jitter : ℚ

/-- `replay.detect_replay(tx, signature)` acting on the module-level `_seen`
set, here passed and returned explicitly.  The fingerprint is
`sha256(json.dumps(tx, sort_keys=True) + signature)`. -/
def detect_replay (env : AnalyzerEnv) (tx : Transaction) (signature : String)
    (seen : List String) : Bool × List String :=
  let key := env.sha256Hex (dumpsDefault tx ++ signature)
  if key ∈ seen then (true, seen) else (false, key :: seen)

/-- `sidechannel.timing_leak_score(tx)`:
`min(1.0, len(str(tx)) / 1000 + random.uniform(0.0, 0.4))`. -/
def timing_leak_score (tx : Transaction) (jitter : ℚ) : ℚ :=
  min 1 (ratAdd (mkRat (pyStr tx).length 1000) jitter)

/-- `len(set(s))`: number of distinct characters. -/
def pySetSize (l : List Char) : Nat :=
  (l.foldl (fun acc c => if c ∈ acc then acc else c :: acc) []).length

/-- Python `round(q, 3)` (as in the analyzer's `metrics`): half rounds up
(`⌊1000q + 1/2⌋/1000`); Python's ties-to-even differs only at exact
half-thousandths, which the pipeline never produces.  Written with integer
floor-division so it evaluates by kernel reduction. -/
def round3 (q : ℚ) : ℚ :=
  mkRat (Int.fdiv (2000 * q.num + (q.den : Int)) (2 * (q.den : Int))) 1000

/-- `RiskAnalysis`: the dict returned by `analyzer.analyze_transaction`
(`metrics` inlined as its two entries). -/
structure RiskAnalysis where
  secure : Bool
  risk : String
  issues : List String
  metrics_entropy : ℚ
  metrics_timing : ℚ
deriving DecidableEq, Repr

/-- `analyzer.analyze_transaction(tx, signature, algorithm, zkp)` acting on
the replay set, which is passed and returned explicitly.  Each `let` stage
mirrors one mutation block of the source, in source order
(replay → entropy → timing → ZKP). -/
def analyze_transaction (env : AnalyzerEnv) (tx : Transaction) (signature : String)
    (algorithm : String) (zkp : Option ZKPDict) (seen : List String) :
    RiskAnalysis × List String :=
  -- issues = []; secure = True; risk = "low"
  -- 1. replay detection
  let rep := detect_replay env tx signature seen
  let issues1 : List String := if rep.1 then ["Replay attack detected"] else []
  let secure1 : Bool := if rep.1 then false else true
  let risk1 : String := if rep.1 then "high" else "low"
  -- 2. message entropy: sha256(json.dumps(tx, sort_keys=True)).hexdigest()
  let msg_hash := env.sha256Hex (dumpsDefault tx)
  let entropy : ℚ := mkRat (pySetSize msg_hash.toList) 16
  let issues2 := issues1 ++
    (if entropy < mkRat 15 100 then ["Very low message entropy"]
     else if entropy < mkRat 35 100 then ["Low message entropy"] else [])
  let secure2 := if entropy < mkRat 15 100 then false else secure1
  let risk2 := if entropy < mkRat 15 100 then "high"
    else if entropy < mkRat 35 100 then "medium" else risk1
  -- 3. timing side-channel
  let timing := timing_leak_score tx env.jitter
  let issues3 := issues2 ++
    (if timing > mkRat 85 100 then ["High timing side-channel risk"]
     else if timing > mkRat 45 100 then ["Moderate timing side-channel risk"] else [])
  let secure3 := if timing > mkRat 85 100 then false else secure2
  let risk3 := if timing > mkRat 85 100 then "high"
    else if timing > mkRat 45 100 then (if risk2 = "high" then risk2 else "medium")
    else risk2
  -- 4. ZKP attribute verification (only when zkp is not None)
  let zres : Option (Bool × String) := zkp.map (verify_zkp_attributes tx)
  let zfail : Option String := match zres with
    | some (false, issue) => some issue
    | _ => none
  let issues4 := issues3 ++ (match zfail with | some i => [i] | none => [])
  let secure4 := if zfail.isSome then false else secure3
  let risk4 := if zfail.isSome then "high" else risk3
  (⟨secure4, risk4, issues4, round3 entropy, round3 timing⟩, rep.2)

/-! ## `cryptanalysis/fraud_mapper.py` -/

/-- `FraudAlert`: the dict returned by `map_to_fraud_alert`. -/
structure FraudAlert where
  fraud : Bool
  probability : ℚ
  severity : String
  reason : String
deriving DecidableEq, Repr

/-- `fraud_mapper.map_to_fraud_alert(analysis)`.  The source also reads
`analysis["metrics"]`'s entropy and timing into locals it never uses; the
result depends only on `risk` and `issues`.  Probabilities 0.85, 0.55, 0.1
are written as exact rationals. -/
def map_to_fraud_alert (analysis : RiskAnalysis) : FraudAlert :=
  if analysis.risk = "high" then
    ⟨true, mkRat 85 100, "High", String.intercalate ", " analysis.issues⟩
  else if analysis.risk = "medium" then
    ⟨true, mkRat 55 100, "Medium", "Suspicious entropy or timing pattern"⟩
  else
    ⟨false, mkRat 1 10, "Low", "Transaction appears normal"⟩

/-! ## `main.py`: downgrade guard, AI risk oracle, `generate_analysis`,
and the `/sign` route -/

/-- The `wallet_security_mode` global: wallet id → last recorded `is_pqc`
(`none` = no record). -/
def WalletMode := String → Option Bool

/-- `wallet_security_mode[wallet_id] = is_pqc`. -/
def setMode (wm : WalletMode) (walletId : String) (isPqc : Bool) : WalletMode :=
  fun x => if x = walletId then some isPqc else wm x

/-- `main.detect_downgrade(wallet_id, is_pqc)` acting on
`wallet_security_mode`, passed and returned explicitly: if the recorded mode
`is True` and `is_pqc` is false it reports a downgrade without touching the
record; otherwise it stores `is_pqc` and reports none. -/
def detect_downgrade (walletId : String) (isPqc : Bool) (wm : WalletMode) :
    Bool × WalletMode :=
  if wm walletId = some true ∧ isPqc = false then (true, wm)
  else (false, setMode wm walletId isPqc)

/-- The outcome of the `requests.post` call to the AI service, as
`main.get_ai_risk` observes it: either some exception was raised (timeout,
connection failure, malformed body — anything the bare `except` catches), or
a response arrived with a status code and an optional integer `risk_score`
field. -/
inductive OracleOutcome where
  | exn
  | response (status : Nat) (riskScore : Option Int)
deriving DecidableEq, Repr

/-- `main.get_ai_risk(tx_dict)`: 200 → `int(data.get("risk_score", 10))`;
any non-200 status or exception → fixed fallback 10. -/
def get_ai_risk (o : OracleOutcome) : Int :=
  match o with
  | .exn => 10
  | .response status riskScore => if status = 200 then riskScore.getD 10 else 10

/-- The dict returned by `main.generate_analysis`. -/
structure GenAnalysis where
  secure : Bool
  risk : String
  risk_score : Int
deriving DecidableEq, Repr

/-- `main.generate_analysis(tx_dict, algorithm)`.  The two `random.uniform`
draws and the oracle outcome are passed explicitly; `algorithm` is accepted
and ignored exactly as in the source.  Stages mirror the source's sequential
updates of `risk_score`. -/
def generate_analysis (tx : Transaction) (algorithm : String)
    (entropyScore timingLeakScore : ℚ) (oracle : OracleOutcome) : GenAnalysis :=
  let ai_risk := get_ai_risk oracle
  let risk_score0 := ai_risk
  let risk_score1 := if timingLeakScore > mkRat 6 100 then risk_score0 + 10 else risk_score0
  let risk_score2 := if entropyScore < mkRat 9 10 then risk_score1 + 10 else risk_score1
  let risk_score3 := if tx.amount > 5000000 then 95 else risk_score2
  let risk_score4 := min risk_score3 95
  let risk : String :=
    if risk_score4 > 70 then "high" else if risk_score4 > 40 then "medium" else "low"
  ⟨risk ≠ "high", risk, risk_score4⟩

/-- Effect environment of one `/sign` request: the PQC signer (abstract —
`oqs.Signature.sign` as a function of wallet and message), the SHA-256 hex
oracle used for the ECDSA simulation and the transaction hash, the two
`random.uniform` draws inside `generate_analysis`, and the AI oracle
outcome. -/
structure SignEnv where
  pqcSign : String → String → String
  sha256Hex : String → String
  entropyScore : ℚ
  timingLeakScore : ℚ
  oracle : OracleOutcome

/-- Mutable state the `/sign` route touches: `wallet_security_mode` and the
set of wallet ids present in `pqc_wallets`. -/
structure GateState where
  walletMode : WalletMode
  pqcWallets : List String

/-- A `SignRequest`. -/
structure SignRequest where
  wallet_id : String
  transaction : Transaction
  algorithm : String
  zkp : Option ZKPDict
deriving Repr

/-- What `/sign` returns: 400 on downgrade detection, 400 carrying the
analysis when `analysis["risk"] == "high"`, or the 201 success payload with
the signature. -/
inductive SignResult where
  | downgradeRejected
  | riskRejected (analysis : GenAnalysis)
  | signed (signature : String) (algorithm : String) (analysis : GenAnalysis)
deriving DecidableEq, Repr

/-- `str.lower()` (character-wise; the algorithm names the gate compares are
ASCII). -/
def pyLower (s : String) : String :=
  String.mk (s.toList.map Char.toLower)

/-- `main.sign_transaction(request)`.  PQC branch: downgrade check (always
called with `is_pqc=True`), wallet creation, PQC signature; otherwise the
ECDSA simulation `sha256(message).hexdigest()`.  Then `generate_analysis`
gates on `risk == "high"`. -/
def sign_transaction (env : SignEnv) (st : GateState) (req : SignRequest) :
    SignResult × GateState :=
  let message := canonical req.transaction
  if pyLower req.algorithm = "pqc" then
    let dg := detect_downgrade req.wallet_id true st.walletMode
    if dg.1 then (.downgradeRejected, st)
    else
      let st1 : GateState :=
        { walletMode := dg.2
          pqcWallets :=
            if req.wallet_id ∈ st.pqcWallets then st.pqcWallets
            else req.wallet_id :: st.pqcWallets }
      let signature := env.pqcSign req.wallet_id message
      let analysis := generate_analysis req.transaction "ML-DSA-44"
        env.entropyScore env.timingLeakScore env.oracle
      if analysis.risk = "high" then (.riskRejected analysis, st1)
      else (.signed signature "ML-DSA-44" analysis, st1)
  else
    let signature := env.sha256Hex message
    let analysis := generate_analysis req.transaction "ECDSA-SHA256"
      env.entropyScore env.timingLeakScore env.oracle
    if analysis.risk = "high" then (.riskRejected analysis, st)
    else (.signed signature "ECDSA-SHA256" analysis, st)

/-! ## Concrete fixtures used by the closed theorems and witnesses -/

/-- A 64-hex-character digest using all 16 symbols (entropy `16/16 = 1`). -/
def digestRich : String :=
  "0123456789abcdef0123456789abcdef0123456789abcdef0123456789abcdef"

/-- A 64-character digest over the three symbols `a`, `b`, `c`
(entropy `3/16 = 0.1875`, inside the `[0.15, 0.35)` band). -/
def digestThree : String :=
  "abcabcabcabcabcabcabcabcabcabcabcabcabcabcabcabcabcabcabcabcabca"

def txA : Transaction := ⟨100, "bob", 1, "2024-01-01T00:00:00Z"⟩

def txB : Transaction := ⟨250, "carol", 2, "2024-02-02T00:00:00Z"⟩

/-- Analyzer environment whose hash oracle always answers `digestRich`,
with zero jitter. -/
def envRich : AnalyzerEnv := ⟨fun _ => digestRich, 0⟩

/-- Analyzer environment whose hash oracle always answers `digestThree`,
with zero jitter. -/
def envThree : AnalyzerEnv := ⟨fun _ => digestThree, 0⟩

/-- Gate environment: abstract PQC signer, hash oracle `digestRich`, benign
entropy/timing draws, oracle unreachable (fallback 10). -/
def envGate : SignEnv :=
  ⟨fun _ _ => "PQCSIGBYTES", fun _ => digestRich, mkRat 95 100, mkRat 5 100, .exn⟩

def stEmpty : GateState := ⟨fun _ => none, []⟩

/-- The spec's end-to-end-scenario-4 ZKP written with the key `enabled`
(as the spec spells it): the code never reads that key. -/
def zkpEnabledKey : ZKPDict :=
  ⟨none, some true, ["amount_gt_zero"], ⟨some false, none, none⟩⟩

/-- The same ZKP with the flag under the key `enable` that the code reads. -/
def zkpEnableKey : ZKPDict :=
  ⟨some true, none, ["amount_gt_zero"], ⟨some false, none, none⟩⟩

end QChain

/-! # Theorems -/

set_option maxRecDepth 10000

namespace QChain

/-- `ratAdd` is ordinary rational addition. -/
theorem ratAdd_eq_add (a b : ℚ) : ratAdd a b = a + b := by
  rw [ratAdd, Rat.mkRat_eq_div]
  have ha : ((a.den : ℚ)) ≠ 0 := Nat.cast_ne_zero.mpr a.den_nz
  have hb : ((b.den : ℚ)) ≠ 0 := Nat.cast_ne_zero.mpr b.den_nz
  conv_rhs => rw [← Rat.num_div_den a, ← Rat.num_div_den b]
  rw [div_add_div _ _ ha hb]
  push_cast
  ring_nf

/-- A digest with at least 6 distinct characters clears both entropy
thresholds (`6/16 = 0.375 ≥ 0.35`). -/
theorem entropy_thresholds_cleared (d : ℕ) (h : 6 ≤ d) :
    ¬(mkRat d 16 < mkRat 15 100) ∧ ¬(mkRat d 16 < mkRat 35 100) := by
  have hd : (6 : ℚ) ≤ (d : ℚ) := by exact_mod_cast h
  rw [Rat.mkRat_eq_div, Rat.mkRat_eq_div, Rat.mkRat_eq_div]
  constructor <;> intro hlt <;>
    rw [div_lt_div_iff₀ (by norm_num) (by norm_num)] at hlt <;>
    push_cast at hlt <;> linarith

/-- Helper: a replay verdict forces `secure = false` in the final analysis
and leaves the replay set unchanged. -/
theorem analyze_replay_insecure (env : AnalyzerEnv) (tx : Transaction) (sig alg : String)
    (zkp : Option ZKPDict) (seen : List String)
    (h : (detect_replay env tx sig seen).1 = true) :
    ((analyze_transaction env tx sig alg zkp seen).1).secure = false
    ∧ (analyze_transaction env tx sig alg zkp seen).2 = seen := by
  have hseen : (detect_replay env tx sig seen).2 = seen := by
    simp only [detect_replay] at h ⊢
    split_ifs at h ⊢ <;> simp_all
  simp only [analyze_transaction, h, hseen]
  split_ifs <;> simp_all

/-- Helper: a replay verdict plus an entropy digest with at least 6 distinct
characters forces final `risk = "high"`. -/
theorem analyze_replay_high (env : AnalyzerEnv) (tx : Transaction) (sig alg : String)
    (zkp : Option ZKPDict) (seen : List String)
    (h : (detect_replay env tx sig seen).1 = true)
    (hd : 6 ≤ pySetSize ((env.sha256Hex (dumpsDefault tx)).toList)) :
    ((analyze_transaction env tx sig alg zkp seen).1).risk = "high" := by
  obtain ⟨e1, e2⟩ := entropy_thresholds_cleared _ hd
  simp only [analyze_transaction, h]
  split_ifs <;> simp_all

/-- Helper: a failed ZKP attribute verification forces the final analysis to
`risk = "high"` and `secure = false` (it is the last signal applied). -/
theorem analyze_zkp_fail_high (env : AnalyzerEnv) (tx : Transaction) (sig alg : String)
    (z : ZKPDict) (seen : List String)
    (h : (verify_zkp_attributes tx z).1 = false) :
    ((analyze_transaction env tx sig alg (some z) seen).1).risk = "high"
    ∧ ((analyze_transaction env tx sig alg (some z) seen).1).secure = false := by
  rcases hv : verify_zkp_attributes tx z with ⟨ok, issue⟩
  rw [hv] at h
  simp only at h
  subst h
  simp only [analyze_transaction, Option.map_some, hv]
  split_ifs <;> simp_all

/-- C1 failing-input evaluation: with the `(tx, signature)` fingerprint
already recorded (replay verdict true) and an entropy digest of three
distinct hex characters, the low-entropy branch overwrites the replay's
`risk="high"` with `"medium"`; `secure` stays false. -/
theorem c1_replay_high_relaxed_to_medium :
    (detect_replay envThree txB "sigB" [digestThree]).1 = true
    ∧ ((analyze_transaction envThree txB "sigB" "ML-DSA-44" none [digestThree]).1).risk
        = "medium"
    ∧ ((analyze_transaction envThree txB "sigB" "ML-DSA-44" none [digestThree]).1).secure
        = false := by
  decide

/-- C2 failing-input evaluation: `alice` signs with `algorithm="pqc"` (the
gate records PQC mode), then signs with `algorithm="classical"`; the gate
does not reject — it produces and returns the ECDSA-simulation signature.
Moreover `main.detect_downgrade` as the gate calls it (always with
`is_pqc=True`) can never report a downgrade, for any state. -/
theorem c2_classical_after_pqc_still_signed :
    (sign_transaction envGate stEmpty ⟨"alice", txA, "pqc", none⟩).1
      = .signed "PQCSIGBYTES" "ML-DSA-44" ⟨true, "low", 10⟩
    ∧ ((sign_transaction envGate stEmpty ⟨"alice", txA, "pqc", none⟩).2).walletMode "alice"
      = some true
    ∧ (sign_transaction envGate
        (sign_transaction envGate stEmpty ⟨"alice", txA, "pqc", none⟩).2
        ⟨"alice", txA, "classical", none⟩).1
      = .signed digestRich "ECDSA-SHA256" ⟨true, "low", 10⟩
    ∧ ∀ w wm, (detect_downgrade w true wm).1 = false := by
  refine ⟨by decide, by decide, by decide, fun w wm => ?_⟩
  simp [detect_downgrade]

/-- C4 counterexample: a replay verdict does not force the final analysis to
`risk="high"` — with an entropy digest of three distinct characters the final
risk is `"medium"` (secure is still forced to false). -/
theorem c4_replay_not_forcing_high :
    (detect_replay envThree txA "sigA" [digestThree]).1 = true
    ∧ ((analyze_transaction envThree txA "sigA" "ECDSA-SHA256" none [digestThree]).1).risk
        = "medium"
    ∧ ((analyze_transaction envThree txA "sigA" "ECDSA-SHA256" none [digestThree]).1).secure
        = false := by
  decide

/-- C3: every `RiskAnalysis` the analyzer produces, and every analysis dict
`generate_analysis` produces, satisfies `risk == "high" ⇒ secure == false`,
for every input, environment and prior replay-set state. -/
theorem c3_high_risk_implies_insecure (env : AnalyzerEnv) (tx : Transaction)
    (sig alg : String) (zkp : Option ZKPDict) (seen : List String)
    (tx2 : Transaction) (alg2 : String) (e t : ℚ) (o : OracleOutcome) :
    (((analyze_transaction env tx sig alg zkp seen).1).risk = "high" →
      ((analyze_transaction env tx sig alg zkp seen).1).secure = false)
    ∧ ((generate_analysis tx2 alg2 e t o).risk = "high" →
      (generate_analysis tx2 alg2 e t o).secure = false) := by
  constructor
  · simp only [analyze_transaction]
    intro h
    split_ifs at h ⊢ <;> simp_all
  · simp only [generate_analysis]
    intro h
    rw [h]
    decide

/-- Witness for C3 at concrete inputs: a replayed transaction with a rich
digest gives `risk = "high"`, and an amount above the cutoff gives
`risk = "high"` in `generate_analysis`; both have `secure = false`. -/
theorem c3_high_risk_implies_insecure_witness :
    ((analyze_transaction envRich txA "sigA" "ML-DSA-44" none [digestRich]).1).secure = false
    ∧ (generate_analysis ⟨6000000, "bob", 1, "t"⟩ "ECDSA-SHA256"
        (mkRat 95 100) (mkRat 5 100) .exn).secure = false :=
  ⟨(c3_high_risk_implies_insecure envRich txA "sigA" "ML-DSA-44" none [digestRich]
      ⟨6000000, "bob", 1, "t"⟩ "ECDSA-SHA256" (mkRat 95 100) (mkRat 5 100) .exn).1
    (by decide),
   (c3_high_risk_implies_insecure envRich txA "sigA" "ML-DSA-44" none [digestRich]
      ⟨6000000, "bob", 1, "t"⟩ "ECDSA-SHA256" (mkRat 95 100) (mkRat 5 100) .exn).2
    (by decide)⟩

/-- C4 amended: the first `detect_replay` call for a fresh fingerprint
returns false and inserts it; any call with the fingerprint already present
returns true and leaves the set unchanged (so a subsequent call with the same
pair returns true); a replay verdict forces `secure = false` and leaves the
set unchanged, and it forces final `risk = "high"` provided the entropy
digest has at least 6 distinct hex characters (the low-entropy branch can
otherwise overwrite the risk level, see the counterexample). -/
theorem c4_replay_idempotence (env : AnalyzerEnv) (tx : Transaction) (sig alg : String)
    (zkp : Option ZKPDict) (seen : List String) :
    (env.sha256Hex (dumpsDefault tx ++ sig) ∉ seen →
      detect_replay env tx sig seen
        = (false, env.sha256Hex (dumpsDefault tx ++ sig) :: seen))
    ∧ (env.sha256Hex (dumpsDefault tx ++ sig) ∈ seen →
      detect_replay env tx sig seen = (true, seen))
    ∧ ((detect_replay env tx sig seen).1 = false →
      (detect_replay env tx sig (detect_replay env tx sig seen).2).1 = true)
    ∧ ((detect_replay env tx sig seen).1 = true →
      ((analyze_transaction env tx sig alg zkp seen).1).secure = false
      ∧ (analyze_transaction env tx sig alg zkp seen).2 = seen)
    ∧ ((detect_replay env tx sig seen).1 = true →
      6 ≤ pySetSize ((env.sha256Hex (dumpsDefault tx)).toList) →
      ((analyze_transaction env tx sig alg zkp seen).1).risk = "high") := by
  refine ⟨?_, ?_, ?_, analyze_replay_insecure env tx sig alg zkp seen,
    analyze_replay_high env tx sig alg zkp seen⟩ <;>
    · intro h
      simp only [detect_replay] at h ⊢
      split_ifs at h ⊢ <;> simp_all

/-- Witness for C4 at a concrete pair: first call records, second call
reports the replay, and the replayed analysis is insecure and high-risk. -/
theorem c4_replay_idempotence_witness :
    detect_replay envRich txB "sigB" [] = (false, [digestRich])
    ∧ detect_replay envRich txB "sigB" [digestRich] = (true, [digestRich])
    ∧ ((analyze_transaction envRich txB "sigB" "ML-DSA-44" none [digestRich]).1).secure = false
    ∧ ((analyze_transaction envRich txB "sigB" "ML-DSA-44" none [digestRich]).1).risk = "high" :=
  ⟨(c4_replay_idempotence envRich txB "sigB" "ML-DSA-44" none []).1 (by decide),
   (c4_replay_idempotence envRich txB "sigB" "ML-DSA-44" none [digestRich]).2.1 (by decide),
   ((c4_replay_idempotence envRich txB "sigB" "ML-DSA-44" none [digestRich]).2.2.2.1
     (by decide)).1,
   (c4_replay_idempotence envRich txB "sigB" "ML-DSA-44" none [digestRich]).2.2.2.2
     (by decide) (by decide)⟩

/-- C9: the AI risk lookup never propagates a failure: an exception or any
non-200 status yields the fixed fallback 10; a 200 response yields its
integer `risk_score`, defaulting to 10 when the field is absent. -/
theorem c9_oracle_fallback :
    get_ai_risk .exn = 10
    ∧ (∀ s rs, s ≠ 200 → get_ai_risk (.response s rs) = 10)
    ∧ (∀ rs, get_ai_risk (.response 200 rs) = rs.getD 10) := by
  refine ⟨rfl, fun s rs h => ?_, fun rs => rfl⟩
  simp [get_ai_risk, h]

/-- Witness for C9: a 500 response falls back to 10. -/
theorem c9_oracle_fallback_witness :
    get_ai_risk (.response 500 (some 80)) = 10 :=
  c9_oracle_fallback.2.1 500 (some 80) (by decide)

/-- C10: a transaction amount above 5,000,000 forces `risk_score = 95`
(independently of the entropy/timing draws and the oracle outcome, and of
the algorithm string), hence `risk = "high"` and `secure = false`, and the
`/sign` gate rejects the request carrying that analysis — the signature is
never returned. -/
theorem c10_amount_cutoff (env : SignEnv) (st : GateState) (req : SignRequest)
    (alg : String) (h : req.transaction.amount > 5000000) :
    (generate_analysis req.transaction alg
        env.entropyScore env.timingLeakScore env.oracle).risk_score = 95
    ∧ (generate_analysis req.transaction alg
        env.entropyScore env.timingLeakScore env.oracle).risk = "high"
    ∧ (generate_analysis req.transaction alg
        env.entropyScore env.timingLeakScore env.oracle).secure = false
    ∧ (sign_transaction env st req).1
        = .riskRejected (generate_analysis req.transaction alg
            env.entropyScore env.timingLeakScore env.oracle) := by
  have hg : ∀ a : String, generate_analysis req.transaction a
      env.entropyScore env.timingLeakScore env.oracle = ⟨false, "high", 95⟩ := by
    intro a
    simp only [generate_analysis]
    rw [if_pos h]
    norm_num
  refine ⟨by rw [hg], by rw [hg], by rw [hg], ?_⟩
  simp only [sign_transaction, hg, detect_downgrade]
  split_ifs <;> simp_all

/-- Witness for C10: a 6,000,000 transaction is risk-rejected. -/
theorem c10_amount_cutoff_witness :
    (sign_transaction envGate stEmpty ⟨"alice", ⟨6000000, "bob", 1, "t"⟩, "classical", none⟩).1
      = .riskRejected (generate_analysis ⟨6000000, "bob", 1, "t"⟩ "ECDSA-SHA256"
          envGate.entropyScore envGate.timingLeakScore envGate.oracle) :=
  (c10_amount_cutoff envGate stEmpty ⟨"alice", ⟨6000000, "bob", 1, "t"⟩, "classical", none⟩
    "ECDSA-SHA256" (by decide)).2.2.2

/-- Lexicographic string comparison is total. -/
theorem strLeb_total : ∀ a b : List Char, strLeb a b = true ∨ strLeb b a = true
  | [], _ => Or.inl rfl
  | _ :: _, [] => Or.inr rfl
  | a :: as, b :: bs => by
    rcases lt_trichotomy a b with h | h | h
    · left
      simp [strLeb, h]
    · subst h
      rcases strLeb_total as bs with ih | ih
      · left
        simp [strLeb, ih]
      · right
        simp [strLeb, ih]
    · right
      simp [strLeb, h]

/-- Lexicographic string comparison is antisymmetric. -/
theorem strLeb_antisymm : ∀ a b : List Char,
    strLeb a b = true → strLeb b a = true → a = b
  | [], [], _, _ => rfl
  | [], _ :: _, _, h2 => by simp [strLeb] at h2
  | _ :: _, [], h1, _ => by simp [strLeb] at h1
  | a :: as, b :: bs, h1, h2 => by
    by_cases hab : a < b
    · have hba : ¬b < a := lt_asymm hab
      have hbeq : ¬b = a := fun h => absurd (h ▸ hab) (lt_irrefl a)
      simp [strLeb, hba, hbeq] at h2
    · by_cases heq : a = b
      · subst heq
        have e : ∀ xs ys, strLeb (a :: xs) (a :: ys) = strLeb xs ys := by
          intro xs ys
          simp [strLeb]
        rw [e] at h1 h2
        rw [strLeb_antisymm as bs h1 h2]
      · simp [strLeb, hab, heq] at h1

/-- Lexicographic string comparison is transitive. -/
theorem strLeb_trans : ∀ a b c : List Char,
    strLeb a b = true → strLeb b c = true → strLeb a c = true
  | [], _, _, _, _ => rfl
  | _ :: _, [], _, h1, _ => by simp [strLeb] at h1
  | _ :: _, _ :: _, [], _, h2 => by simp [strLeb] at h2
  | a :: as, b :: bs, c :: cs, h1, h2 => by
    by_cases hab : a < b
    · by_cases hbc : b < c
      · simp [strLeb, lt_trans hab hbc]
      · by_cases hbc' : b = c
        · subst hbc'
          simp [strLeb, hab]
        · simp [strLeb, hbc, hbc'] at h2
    · by_cases hab' : a = b
      · subst hab'
        simp only [strLeb, if_neg hab, if_pos rfl] at h1
        by_cases hac : a < c
        · simp [strLeb, hac]
        · by_cases hac' : a = c
          · subst hac'
            simp only [strLeb, if_neg hac, if_pos rfl] at h2 ⊢
            exact strLeb_trans as bs cs h1 h2
          · simp [strLeb, hac, hac'] at h2
      · simp [strLeb, hab, hab'] at h1

/-- Totality of the key order. -/
theorem keyLeb_total (p q : String × PyVal) : keyLeb p q = true ∨ keyLeb q p = true :=
  strLeb_total _ _

/-- Transitivity of the key order. -/
theorem keyLeb_trans {p q r : String × PyVal}
    (h1 : keyLeb p q = true) (h2 : keyLeb q r = true) : keyLeb p r = true :=
  strLeb_trans _ _ _ h1 h2

/-- Two keys below each other are equal. -/
theorem keyLeb_antisymm_key {p q : String × PyVal}
    (h1 : keyLeb p q = true) (h2 : keyLeb q p = true) : p.1 = q.1 := by
  have h := strLeb_antisymm _ _ h1 h2
  exact String.ext h

/-- `insertKey` permutes. -/
theorem insertKey_perm (p : String × PyVal) :
    ∀ l, (insertKey p l).Perm (p :: l)
  | [] => List.Perm.refl _
  | q :: t => by
    simp only [insertKey]
    split_ifs
    · exact List.Perm.refl _
    · exact ((insertKey_perm p t).cons q).trans (List.Perm.swap p q t)

/-- `sortByKey` permutes. -/
theorem sortByKey_perm : ∀ l, (sortByKey l).Perm l
  | [] => List.Perm.refl _
  | p :: t => (insertKey_perm p (sortByKey t)).trans ((sortByKey_perm t).cons p)

/-- `insertKey` preserves key-sortedness. -/
theorem insertKey_sorted (p : String × PyVal) :
    ∀ l, List.Pairwise (fun x y => keyLeb x y = true) l →
      List.Pairwise (fun x y => keyLeb x y = true) (insertKey p l)
  | [], _ => by simp [insertKey]
  | q :: t, hs => by
    rcases List.pairwise_cons.mp hs with ⟨hq, ht⟩
    simp only [insertKey]
    split_ifs with h
    · refine List.pairwise_cons.mpr ⟨?_, hs⟩
      intro y hy
      rcases List.mem_cons.mp hy with rfl | hy'
      · exact h
      · exact keyLeb_trans h (hq y hy')
    · have hqp : keyLeb q p = true := (keyLeb_total p q).resolve_left h
      refine List.pairwise_cons.mpr ⟨?_, insertKey_sorted p t ht⟩
      intro y hy
      have hy2 : y ∈ p :: t := (insertKey_perm p t).subset hy
      rcases List.mem_cons.mp hy2 with rfl | hy'
      · exact hqp
      · exact hq y hy'

/-- `sortByKey` sorts. -/
theorem sortByKey_sorted :
    ∀ l, List.Pairwise (fun x y => keyLeb x y = true) (sortByKey l)
  | [] => List.Pairwise.nil
  | p :: t => insertKey_sorted p _ (sortByKey_sorted t)

/-- Two key-sorted lists that are permutations of each other and have
pairwise-distinct keys are equal. -/
theorem keySorted_nodup_perm_eq :
    ∀ l₁ l₂ : List (String × PyVal), l₁.Perm l₂ →
      List.Pairwise (fun x y => keyLeb x y = true) l₁ →
      List.Pairwise (fun x y => keyLeb x y = true) l₂ →
      (l₁.map Prod.fst).Nodup → l₁ = l₂
  | [], _, hp, _, _, _ => hp.nil_eq
  | p :: t₁, l₂, hp, hs₁, hs₂, hn => by
    cases l₂ with
    | nil => exact absurd hp.symm.nil_eq (by simp)
    | cons q t₂ =>
      rcases List.pairwise_cons.mp hs₁ with ⟨h1, ht₁⟩
      rcases List.pairwise_cons.mp hs₂ with ⟨h2, ht₂⟩
      simp only [List.map_cons, List.nodup_cons] at hn
      have hpq : p = q := by
        have hpmem : p ∈ q :: t₂ := hp.subset (List.mem_cons_self p t₁)
        rcases List.mem_cons.mp hpmem with h | h
        · exact h
        · have hqmem : q ∈ p :: t₁ := hp.symm.subset (List.mem_cons_self q t₂)
          rcases List.mem_cons.mp hqmem with h' | h'
          · exact h'.symm
          · have hk : p.1 = q.1 := keyLeb_antisymm_key (h1 q h') (h2 p h)
            have : q.1 ∈ t₁.map Prod.fst := List.mem_map_of_mem Prod.fst h'
            rw [← hk] at this
            exact absurd this hn.1
      subst hpq
      rw [keySorted_nodup_perm_eq t₁ t₂ hp.cons_inv ht₁ ht₂ hn.2]

/-- `sortByKey` is invariant under permutation of a nodup-keyed item list. -/
theorem sortByKey_eq_of_perm {l₁ l₂ : List (String × PyVal)} (h : l₁.Perm l₂)
    (hn : (l₁.map Prod.fst).Nodup) : sortByKey l₁ = sortByKey l₂ :=
  keySorted_nodup_perm_eq _ _
    ((sortByKey_perm l₁).trans (h.trans (sortByKey_perm l₂).symm))
    (sortByKey_sorted l₁) (sortByKey_sorted l₂)
    (((sortByKey_perm l₁).map Prod.fst).nodup_iff.mpr hn)

/-- C5 amended: `canonical` is the sorted-key, whitespace-free serialization
(`separators=(",", ":")`), it serializes the fields in alphabetically sorted
key order, and `dumps` is invariant under permutation of the item list (so
identical field values give byte-identical output regardless of construction
order); but the hash-based checks consume `json.dumps(tx, sort_keys=True)`
with Python's default separators `(", ", ": ")` — not the canonical bytes
(see the counterexample). -/
theorem c5_canonicalization (tx : Transaction) (itemSep kvSep : String)
    (l₁ l₂ : List (String × PyVal)) :
    canonical tx = dumps "," ":" (txDict tx)
    ∧ (sortByKey (txDict tx)).map Prod.fst = ["amount", "nonce", "timestamp", "to"]
    ∧ (l₁.Perm l₂ → (l₁.map Prod.fst).Nodup →
        dumps itemSep kvSep l₁ = dumps itemSep kvSep l₂)
    ∧ dumpsDefault tx = dumps ", " ": " (txDict tx) := by
  refine ⟨rfl, rfl, fun hp hn => ?_, rfl⟩
  simp only [dumps, sortByKey_eq_of_perm hp hn]

/-- Witness for C5: serializing the transaction dict items in reversed
construction order yields byte-identical canonical output. -/
theorem c5_canonicalization_witness :
    dumps "," ":" ((txDict txA).reverse) = dumps "," ":" (txDict txA) :=
  (c5_canonicalization txA "," ":" ((txDict txA).reverse) (txDict txA)).2.2.1
    (List.reverse_perm _) (by decide)

/-- C5 counterexample: the bytes hashed by the replay fingerprint and the
entropy check (`json.dumps(tx, sort_keys=True)`, default separators with
spaces) differ from the canonical bytes (`separators=(",", ":")`). -/
theorem c5_hash_input_differs_from_canonical :
    dumpsDefault txA ≠ canonical txA := by
  decide

/-- C6 amended: with the opt-in flag read from the key `enable` (the key the
code reads; the spec writes `enabled`): verification returns `(true, "")`
whenever the flag is not present-and-true; when it is, verification fails
exactly when `amount_gt_zero` is missing from the attributes or from the
public inputs, or its public input differs from `tx.amount > 0`, or a
declared `nonce`/`recipient` attribute mismatches the transaction; the
scenario-4 input (with key `enable`) fails with the mismatch issue and
forces the analysis to `risk = "high"`, `secure = false`. -/
theorem c6_zkp_verification (tx : Transaction) (z : ZKPDict) :
    (z.enable ≠ some true → verify_zkp_attributes tx z = (true, ""))
    ∧ (z.enable = some true →
      ((verify_zkp_attributes tx z).1 = false ↔
        ("amount_gt_zero" ∉ z.attributes
          ∨ z.public_inputs.amount_gt_zero = none
          ∨ z.public_inputs.amount_gt_zero ≠ some (decide (tx.amount > 0))
          ∨ ("nonce" ∈ z.attributes ∧ z.public_inputs.nonce ≠ some tx.nonce)
          ∨ ("recipient" ∈ z.attributes ∧ z.public_inputs.recipient ≠ some tx.to))))
    ∧ verify_zkp_attributes txA zkpEnableKey
        = (false, "ZKP verification failed: amount_gt_zero mismatch")
    ∧ (∀ env sig alg seen,
        ((analyze_transaction env txA sig alg (some zkpEnableKey) seen).1).risk = "high"
        ∧ ((analyze_transaction env txA sig alg (some zkpEnableKey) seen).1).secure = false) := by
  refine ⟨fun h => ?_, fun h => ?_, by decide,
    fun env sig alg seen => analyze_zkp_fail_high env txA sig alg zkpEnableKey seen (by decide)⟩
  · simp [verify_zkp_attributes, h]
  · simp only [verify_zkp_attributes, h]
    split_ifs <;> simp_all

/-- Witness for C6: a disabled ZKP (key `enable` absent) passes, and the
scenario ZKP's failure characterization holds at its concrete input. -/
theorem c6_zkp_verification_witness :
    verify_zkp_attributes txB zkpEnabledKey = (true, "")
    ∧ ((verify_zkp_attributes txA zkpEnableKey).1 = false ↔
        ("amount_gt_zero" ∉ zkpEnableKey.attributes
          ∨ zkpEnableKey.public_inputs.amount_gt_zero = none
          ∨ zkpEnableKey.public_inputs.amount_gt_zero ≠ some (decide (txA.amount > 0))
          ∨ ("nonce" ∈ zkpEnableKey.attributes
              ∧ zkpEnableKey.public_inputs.nonce ≠ some txA.nonce)
          ∨ ("recipient" ∈ zkpEnableKey.attributes
              ∧ zkpEnableKey.public_inputs.recipient ≠ some txA.to))) :=
  ⟨(c6_zkp_verification txB zkpEnabledKey).1 (by decide),
   (c6_zkp_verification txA zkpEnableKey).2.1 (by decide)⟩

/-- C7: the fraud mapper is a pure function of `risk` and `issues` with the
fixed table: high → (true, 0.85, High, comma-joined issues); medium →
(true, 0.55, Medium, fixed text); otherwise (false, 0.1, Low, fixed text) —
and identical `risk`/`issues` give identical alerts. -/
theorem c7_fraud_mapper (a b : RiskAnalysis) :
    (a.risk = "high" → map_to_fraud_alert a
      = ⟨true, mkRat 85 100, "High", String.intercalate ", " a.issues⟩)
    ∧ (a.risk = "medium" → map_to_fraud_alert a
      = ⟨true, mkRat 55 100, "Medium", "Suspicious entropy or timing pattern"⟩)
    ∧ (a.risk ≠ "high" → a.risk ≠ "medium" → map_to_fraud_alert a
      = ⟨false, mkRat 1 10, "Low", "Transaction appears normal"⟩)
    ∧ (a.risk = b.risk → a.issues = b.issues →
      map_to_fraud_alert a = map_to_fraud_alert b) := by
  refine ⟨fun h => ?_, fun h => ?_, fun h1 h2 => ?_, fun h1 h2 => ?_⟩ <;>
    simp only [map_to_fraud_alert] <;> split_ifs <;> simp_all

/-- Witness for C7 at concrete analyses. -/
theorem c7_fraud_mapper_witness :
    map_to_fraud_alert ⟨false, "high", ["a", "b"], 1, 0⟩
      = ⟨true, mkRat 85 100, "High", "a, b"⟩
    ∧ map_to_fraud_alert ⟨true, "medium", [], 1, 0⟩
      = ⟨true, mkRat 55 100, "Medium", "Suspicious entropy or timing pattern"⟩
    ∧ map_to_fraud_alert ⟨true, "low", [], 1, 0⟩
      = ⟨false, mkRat 1 10, "Low", "Transaction appears normal"⟩
    ∧ map_to_fraud_alert ⟨false, "high", ["a", "b"], 1, 0⟩
      = map_to_fraud_alert ⟨true, "high", ["a", "b"], mkRat 1 2, 1⟩ :=
  ⟨(c7_fraud_mapper ⟨false, "high", ["a", "b"], 1, 0⟩ ⟨false, "high", ["a", "b"], 1, 0⟩).1 rfl,
   (c7_fraud_mapper ⟨true, "medium", [], 1, 0⟩ ⟨true, "medium", [], 1, 0⟩).2.1 rfl,
   (c7_fraud_mapper ⟨true, "low", [], 1, 0⟩ ⟨true, "low", [], 1, 0⟩).2.2.1
     (by decide) (by decide),
   (c7_fraud_mapper ⟨false, "high", ["a", "b"], 1, 0⟩
     ⟨true, "high", ["a", "b"], mkRat 1 2, 1⟩).2.2.2 rfl rfl⟩

/-- C8: the downgrade guard's transition rule: a stored PQC record plus a
classical call reports a downgrade without altering the record; otherwise
the record is set to `isPQC` and no downgrade is reported; a PQC call never
reports a downgrade (also not after a previous PQC call), and a sender with
no history signing classically is not a downgrade. -/
theorem c8_downgrade_guard (wm : WalletMode) (w : String) (b : Bool) :
    (wm w = some true → b = false → detect_downgrade w b wm = (true, wm))
    ∧ (¬(wm w = some true ∧ b = false) →
      detect_downgrade w b wm = (false, setMode wm w b))
    ∧ (detect_downgrade w true wm).1 = false
    ∧ (wm w = none → (detect_downgrade w false wm).1 = false)
    ∧ (detect_downgrade w true ((detect_downgrade w true wm).2)).1 = false := by
  refine ⟨fun h1 h2 => ?_, fun h => ?_, ?_, fun h => ?_, ?_⟩ <;>
    simp only [detect_downgrade] <;> split_ifs <;> simp_all

/-- Witness for C8: with `alice` recorded as PQC, a classical call reports a
downgrade and leaves the record; for `bob` (no history) the classical call
records classical mode and reports none. -/
theorem c8_downgrade_guard_witness :
    detect_downgrade "alice" false (fun x => if x = "alice" then some true else none)
      = (true, fun x => if x = "alice" then some true else none)
    ∧ detect_downgrade "bob" false (fun x => if x = "alice" then some true else none)
      = (false, setMode (fun x => if x = "alice" then some true else none) "bob" false)
    ∧ (detect_downgrade "bob" false (fun x => if x = "alice" then some true else none)).1
      = false :=
  ⟨(c8_downgrade_guard (fun x => if x = "alice" then some true else none) "alice" false).1
     (by decide) rfl,
   (c8_downgrade_guard (fun x => if x = "alice" then some true else none) "bob" false).2.1
     (by decide),
   (c8_downgrade_guard (fun x => if x = "alice" then some true else none) "bob" false).2.2.2.1
     (by decide)⟩

/-- C6 counterexample: the spec's scenario-4 ZKP written with key `enabled`
is ignored by the code (which reads `enable`): verification passes and the
analysis is not forced to high risk. -/
theorem c6_enabled_key_is_ignored :
    verify_zkp_attributes txA zkpEnabledKey = (true, "")
    ∧ ((analyze_transaction envRich txA "sigA" "ML-DSA-44" (some zkpEnabledKey) []).1).risk
        = "low"
    ∧ ((analyze_transaction envRich txA "sigA" "ML-DSA-44" (some zkpEnabledKey) []).1).secure
        = true := by
  decide

end QChain
